import Mathlib

/-!
Verification of the process-supervision core of `src/src-tauri/src/main.rs`
(binaryTool). The Rust source is shallowly embedded: filesystem and OS
facilities (tauri path resolver, `std::env::current_exe`, `Path::exists`,
process spawning) are abstracted as explicit environment records, strings
model `PathBuf`/`str` values, and the tokio line reader is modelled as an
explicit list of read outcomes. All definitions are executable and
structurally recursive, so concrete runs evaluate by `rfl`/`decide`.
-/

namespace BinaryTool

/-- Models Rust `str::starts_with` (byte-prefix test; all prefixes used by the
program are ASCII, so characters coincide with bytes). -/
def charsIsPre : List Char → List Char → Bool
  | [], _ => true
  | _ :: _, [] => false
  | p :: ps, c :: cs => p == c && charsIsPre ps cs

/-- Rust `s.starts_with(pre)`. -/
def rustStartsWith (s pre : String) : Bool :=
  charsIsPre pre.data s.data

/-- Rust byte slicing `&s[n..]` for an ASCII prefix of length `n`. -/
def strDrop (s : String) (n : Nat) : String :=
  String.mk (s.data.drop n)

/-- The Windows extended-length ("verbatim") path marker `\\?\`
(written `"\\\\?\\"` in the Rust source). -/
def verbatimMarker : String := "\\\\?\\"

/-- Models lines 23-27 / 37-41 of main.rs: strip the verbatim marker when the
path string starts with it (`&path_str[4..]`), else keep the path. -/
def stripVerbatim (s : String) : String :=
  if rustStartsWith s verbatimMarker then strDrop s 4 else s

/-- Models `PathBuf::join` with a relative component (platform separator
abstracted as "/"; nothing proved depends on the separator character). -/
def pathJoin (a b : String) : String := a ++ "/" ++ b

/-- Environment of `get_tracker_path` (main.rs lines 14-65): the tauri path
resolver, `std::env::current_exe`, `PathBuf::parent` and `Path::exists` are
inputs; `debugAssertions` is `cfg!(debug_assertions)`. -/
structure LauncherEnv where
  debugAssertions : Bool
  resolveResource : Option String
  resourceDir : Option String
  currentExe : Option String
  parentOf : String → Option String
  pathExists : String → Bool

/-- User-facing message of the final `Err` of `get_tracker_path` (line 63). -/
def workerNotFoundMsg : String := "找不到tracker.exe，请确保程序完整安装"

/-- Candidate (a), main.rs lines 21-31: `resolve_resource("tracker.exe")`,
verbatim marker stripped, then `exists()` checked on the cleaned path. -/
def candidate1 (env : LauncherEnv) : Option String :=
  match env.resolveResource with
  | some path =>
    let clean_path := stripVerbatim path
    if env.pathExists clean_path then some clean_path else none
  | none => none

/-- Candidate (b), main.rs lines 34-45: `resource_dir().join("tracker.exe")`,
verbatim marker stripped, then `exists()` checked on the cleaned path. -/
def candidate2 (env : LauncherEnv) : Option String :=
  match env.resourceDir with
  | some resource_dir =>
    let clean_path := stripVerbatim (pathJoin resource_dir "tracker.exe")
    if env.pathExists clean_path then some clean_path else none
  | none => none

/-- Lines 48-49: `current_exe()` followed by `.parent()`. -/
def exeDir (env : LauncherEnv) : Option String :=
  match env.currentExe with
  | some exe_path => env.parentOf exe_path
  | none => none

/-- Candidate (c), main.rs lines 51-54: `exe_dir/resources/tracker.exe`,
checked and returned as joined (no verbatim stripping in the source here). -/
def candidate3 (env : LauncherEnv) : Option String :=
  match exeDir env with
  | some exe_dir =>
    let path := pathJoin (pathJoin exe_dir "resources") "tracker.exe"
    if env.pathExists path then some path else none
  | none => none

/-- Candidate (d), main.rs lines 56-59: `exe_dir/tracker.exe`, checked and
returned as joined (no verbatim stripping in the source here). -/
def candidate4 (env : LauncherEnv) : Option String :=
  match exeDir env with
  | some exe_dir =>
    let path := pathJoin exe_dir "tracker.exe"
    if env.pathExists path then some path else none
  | none => none

/-- Embedding of `get_tracker_path` (main.rs lines 14-65): dev mode returns
the fixed script path; packaged mode tries the four candidates in order and
errors when none exists. -/
def get_tracker_path (env : LauncherEnv) : Except String String :=
  if env.debugAssertions then
    Except.ok "../python/tracker.py"
  else
    match candidate1 env with
    | some p => Except.ok p
    | none =>
      match candidate2 env with
      | some p => Except.ok p
      | none =>
        match candidate3 env with
        | some p => Except.ok p
        | none =>
          match candidate4 env with
          | some p => Except.ok p
          | none => Except.error workerNotFoundMsg

/-! ## JSON parsing (model of the serde_json library calls)

`serde_json` is an external crate; this is an executable model of the parts
the program uses: parsing a whole string into a JSON value, then decoding
`SearchProgress` / `LeakerInfo` with serde-derive field semantics (required
fields, `#[serde(default)]`, unknown fields ignored). Simplifications, all
irrelevant to the claims: numbers are modelled as integers (a fractional
payload is rejected here and is a type error for the `u32` fields in serde —
either way no event), `\uXXXX` string escapes are not modelled, and a
duplicated object key yields the first occurrence rather than an error. -/

inductive Json where
  | null
  | bool (b : Bool)
  | num (n : Int)
  | str (s : String)
  | arr (elems : List Json)
  | obj (fields : List (String × Json))

/-- JSON whitespace (the four characters serde_json skips). -/
def skipWs : List Char → List Char
  | c :: cs => if c = ' ' || c = '\t' || c = '\n' || c = '\r' then skipWs cs else c :: cs
  | [] => []

/-- JSON string escape characters (short escapes only). -/
def escChar (c : Char) : Option Char :=
  if c = '"' then some '"'
  else if c = '\\' then some '\\'
  else if c = '/' then some '/'
  else if c = 'n' then some '\n'
  else if c = 't' then some '\t'
  else if c = 'r' then some '\r'
  else if c = 'b' then some (Char.ofNat 8)
  else if c = 'f' then some (Char.ofNat 12)
  else none

/-- Parse the body of a JSON string literal (after the opening quote),
returning the decoded characters and the input after the closing quote. -/
def parseStringChars : List Char → Option (List Char × List Char)
  | [] => none
  | '"' :: rest => some ([], rest)
  | '\\' :: e :: rest =>
    match escChar e with
    | some c => (parseStringChars rest).map (fun p => (c :: p.1, p.2))
    | none => none
  | c :: rest => (parseStringChars rest).map (fun p => (c :: p.1, p.2))

def isDigitChar (c : Char) : Bool := '0' ≤ c && c ≤ '9'

/-- Longest digit prefix of the input. -/
def takeDigits : List Char → List Char × List Char
  | [] => ([], [])
  | c :: cs =>
    if isDigitChar c then
      let p := takeDigits cs
      (c :: p.1, p.2)
    else ([], c :: cs)

def digitsVal : List Char → Nat → Nat
  | [], acc => acc
  | c :: cs, acc => digitsVal cs (acc * 10 + (c.toNat - 48))

/-- Parse a JSON integer (optional minus sign, then digits). -/
def parseNumber : List Char → Option (Json × List Char)
  | '-' :: cs =>
    match takeDigits cs with
    | ([], _) => none
    | (ds, rest) => some (Json.num (-(digitsVal ds 0 : Int)), rest)
  | cs =>
    match takeDigits cs with
    | ([], _) => none
    | (ds, rest) => some (Json.num (digitsVal ds 0), rest)

/-- Task selector for the fuel-indexed JSON parser. -/
inductive PTask where
  | value
  | members
  | elements

/-- Result of the fuel-indexed JSON parser, matching the task. -/
inductive PRes where
  | value (v : Json)
  | members (ms : List (String × Json))
  | elements (vs : List Json)

/-- Fuel-indexed recursive-descent JSON parser (structural recursion on the
fuel, so concrete parses reduce in the kernel). `members` parses a non-empty
`key : value` list after `{`; `elements` a non-empty value list after `[`. -/
def parseStep : Nat → PTask → List Char → Option (PRes × List Char)
  | 0, _, _ => none
  | Nat.succ fuel, PTask.value, cs =>
    match skipWs cs with
    | 'n' :: 'u' :: 'l' :: 'l' :: rest => some (PRes.value Json.null, rest)
    | 't' :: 'r' :: 'u' :: 'e' :: rest => some (PRes.value (Json.bool true), rest)
    | 'f' :: 'a' :: 'l' :: 's' :: 'e' :: rest => some (PRes.value (Json.bool false), rest)
    | '"' :: rest =>
      match parseStringChars rest with
      | some (chars, rest2) => some (PRes.value (Json.str (String.mk chars)), rest2)
      | none => none
    | '{' :: rest =>
      match skipWs rest with
      | '}' :: rest2 => some (PRes.value (Json.obj []), rest2)
      | rest2 =>
        match parseStep fuel PTask.members rest2 with
        | some (PRes.members ms, rest3) => some (PRes.value (Json.obj ms), rest3)
        | _ => none
    | '[' :: rest =>
      match skipWs rest with
      | ']' :: rest2 => some (PRes.value (Json.arr []), rest2)
      | rest2 =>
        match parseStep fuel PTask.elements rest2 with
        | some (PRes.elements vs, rest3) => some (PRes.value (Json.arr vs), rest3)
        | _ => none
    | rest => (parseNumber rest).map (fun p => (PRes.value p.1, p.2))
  | Nat.succ fuel, PTask.members, cs =>
    match skipWs cs with
    | '"' :: rest =>
      match parseStringChars rest with
      | some (keyChars, rest2) =>
        match skipWs rest2 with
        | ':' :: rest3 =>
          match parseStep fuel PTask.value rest3 with
          | some (PRes.value v, rest4) =>
            (match skipWs rest4 with
             | ',' :: rest5 =>
               match parseStep fuel PTask.members rest5 with
               | some (PRes.members ms, rest6) =>
                 some (PRes.members ((String.mk keyChars, v) :: ms), rest6)
               | _ => none
             | '}' :: rest5 => some (PRes.members [(String.mk keyChars, v)], rest5)
             | _ => none)
          | _ => none
        | _ => none
      | none => none
    | _ => none
  | Nat.succ fuel, PTask.elements, cs =>
    match parseStep fuel PTask.value cs with
    | some (PRes.value v, rest) =>
      (match skipWs rest with
       | ',' :: rest2 =>
         match parseStep fuel PTask.elements rest2 with
         | some (PRes.elements vs, rest3) => some (PRes.elements (v :: vs), rest3)
         | _ => none
       | ']' :: rest2 => some (PRes.elements [v], rest2)
       | _ => none)
    | _ => none

/-- Model of `serde_json` whole-string parsing: one JSON value, then only
trailing whitespace. The fuel `2 * length + 2` dominates the parser's call
depth (each nesting level consumes input). -/
def parseJson (s : String) : Option Json :=
  match parseStep (2 * s.data.length + 2) PTask.value s.data with
  | some (PRes.value v, rest) => if skipWs rest = [] then some v else none
  | _ => none

/-- Field lookup in a decoded JSON object. -/
def jsonField : List (String × Json) → String → Option Json
  | [], _ => none
  | (k, v) :: rest, key => if k == key then some v else jsonField rest key

/-- serde decoding of a `u32` field: an integer in range. -/
def decodeU32 : Json → Option Nat
  | Json.num n => if 0 ≤ n ∧ n < 4294967296 then some n.toNat else none
  | _ => none

def decodeStr : Json → Option String
  | Json.str s => some s
  | _ => none

def decodeBool : Json → Option Bool
  | Json.bool b => some b
  | _ => none

def decodeStrList : List Json → Option (List String)
  | [] => some []
  | Json.str s :: rest => (decodeStrList rest).map (fun xs => s :: xs)
  | _ => none

/-- serde decoding of a `Vec<String>` field. -/
def decodeStrArray : Json → Option (List String)
  | Json.arr xs => decodeStrList xs
  | _ => none

/-- `SearchProgress` (main.rs lines 109-117): `u32` counters modelled as
`Nat` (the decoder enforces the `u32` range). -/
structure SearchProgress where
  step : Nat
  total : Nat
  remaining : Nat
  message : String
  names : List String
  deriving DecidableEq

/-- `LeakerInfo` (main.rs lines 98-107). The struct has no
`#[serde(rename_all)]` attribute, so the wire field names are the Rust field
names verbatim (`display_name`, not `displayName`); `confirmed` alone is
`#[serde(default)]`. -/
structure LeakerInfo where
  id : String
  username : String
  display_name : String
  avatar : String
  roles : List String
  confirmed : Bool
  deriving DecidableEq

/-- Models `serde_json::from_str::<SearchProgress>`: all of `step`, `total`,
`remaining`, `message` required; `names` is `#[serde(default)]`; unknown
fields ignored. -/
def parseSearchProgress (s : String) : Option SearchProgress :=
  match parseJson s with
  | some (Json.obj fields) =>
    ((jsonField fields "step").bind decodeU32).bind (fun step =>
      ((jsonField fields "total").bind decodeU32).bind (fun total =>
        ((jsonField fields "remaining").bind decodeU32).bind (fun remaining =>
          ((jsonField fields "message").bind decodeStr).bind (fun message =>
            (match jsonField fields "names" with
             | some v => decodeStrArray v
             | none => some []).bind (fun names =>
              some ⟨step, total, remaining, message, names⟩)))))
  | _ => none

/-- Models `serde_json::from_str::<LeakerInfo>`: `id`, `username`,
`display_name`, `avatar`, `roles` required; `confirmed` is
`#[serde(default)]` (false); unknown fields ignored. -/
def parseLeakerInfo (s : String) : Option LeakerInfo :=
  match parseJson s with
  | some (Json.obj fields) =>
    ((jsonField fields "id").bind decodeStr).bind (fun id =>
      ((jsonField fields "username").bind decodeStr).bind (fun username =>
        ((jsonField fields "display_name").bind decodeStr).bind (fun display_name =>
          ((jsonField fields "avatar").bind decodeStr).bind (fun avatar =>
            ((jsonField fields "roles").bind decodeStrArray).bind (fun roles =>
              (match jsonField fields "confirmed" with
               | some v => decodeBool v
               | none => some false).bind (fun confirmed =>
                some ⟨id, username, display_name, avatar, roles, confirmed⟩))))))
  | _ => none

/-! ## Search supervisor (`start_binary_search`, `stop_search`, main.rs 119-187)

The tokio `BufReader::lines` stream is modelled as a list of read outcomes
(`line` or `ioError`; end of list is end of stream). Concurrent `stop_search`
calls are modelled by a stop schedule: entry `i` of the list says whether a
`RUNNING.store(false)` landed between the previous loop iteration and
iteration `i`'s read of the flag. -/

/-- One outcome of `reader.next_line().await`: `line` for `Ok(Some(_))`,
`ioError` for `Err(_)`; the end of the list is `Ok(None)` (EOF). -/
inductive ReadItem where
  | line (s : String)
  | ioError
  deriving DecidableEq

/-- What one iteration of the read loop (main.rs 168-176) does with a line. -/
inductive LineAction where
  | emit (p : SearchProgress)
  | retain (r : LeakerInfo)
  | nothing
  deriving DecidableEq

/-- Body of the read loop for one line, main.rs lines 168-176: dispatch on
the `PROGRESS:` / `RESULT:` prefixes, silently dropping undecodable
remainders and unrecognized lines. -/
def processLine (line : String) : LineAction :=
  if rustStartsWith line "PROGRESS:" then
    match parseSearchProgress (strDrop line 9) with
    | some progress => LineAction.emit progress
    | none => LineAction.nothing
  else if rustStartsWith line "RESULT:" then
    match parseLeakerInfo (strDrop line 7) with
    | some leaker => LineAction.retain leaker
    | none => LineAction.nothing
  else LineAction.nothing

/-- The read loop, main.rs lines 163-177. Returns the final flag value, the
retained result, the emitted progress events in order, and the stream items
never read. A line is read before the flag check, so a cancelled iteration
still consumes (and discards) one line. -/
def readLoop : List ReadItem → List Bool → Bool → Option LeakerInfo → List SearchProgress →
    Bool × Option LeakerInfo × List SearchProgress × List ReadItem
  | items, stops, running0, result, emitted =>
    let running := running0 && !(stops.headD false)
    match items with
    | [] => (running, result, emitted, [])
    | ReadItem.ioError :: rest => (running, result, emitted, rest)
    | ReadItem.line l :: rest =>
      if running then
        match processLine l with
        | LineAction.emit p => readLoop rest stops.tail running result (emitted ++ [p])
        | LineAction.retain r => readLoop rest stops.tail running (some r) emitted
        | LineAction.nothing => readLoop rest stops.tail running result emitted
      else
        (running, result, emitted, rest)

/-- The spawned child, main.rs lines 136-158: `stdoutPipe` is
`child.stdout.take()` together with the stream the pipe will deliver. -/
structure Child where
  stdoutPipe : Option (List ReadItem)
  deriving DecidableEq

/-- Environment of one `start_binary_search` invocation: the launcher
environment, the outcome of `serde_json::to_string(&config)`, and the outcome
of `Command::spawn` (OS behavior, hence environmental). -/
structure StartEnv where
  launcher : LauncherEnv
  serializeConfig : Except String String
  spawn : Except String Child

def alreadyRunningMsg : String := "搜索已在运行中"

def noStdoutMsg : String := "无法获取stdout"

def spawnPythonMsg : String := "启动Python失败: "

def spawnTrackerMsg : String := "启动tracker失败: "

/-- Observable outcome of `start_binary_search`: the returned value, the
final value of the `RUNNING` flag, the progress events emitted via
`emit_all`, and the stdout items never read. -/
structure StartOutcome where
  result : Except String (Option LeakerInfo)
  running : Bool
  emitted : List SearchProgress
  unread : List ReadItem

/-- Embedding of `start_binary_search` (main.rs lines 119-181). `running` is
the value of the `RUNNING` atomic at entry; `stops` is the stop schedule for
the read loop. Every early `return Err(...)?` path leaves the flag exactly as
the source does. -/
def start_binary_search (env : StartEnv) (running : Bool) (stops : List Bool) : StartOutcome :=
  if running then
    { result := Except.error alreadyRunningMsg, running := running, emitted := [], unread := [] }
  else
    -- RUNNING.store(true, SeqCst), line 128
    let running := true
    match env.serializeConfig with
    | Except.error e => { result := Except.error e, running := running, emitted := [], unread := [] }
    | Except.ok _config_json =>
      match get_tracker_path env.launcher with
      | Except.error e => { result := Except.error e, running := running, emitted := [], unread := [] }
      | Except.ok _tracker_path =>
        match env.spawn with
        | Except.error e =>
          { result := Except.error
              ((if env.launcher.debugAssertions then spawnPythonMsg else spawnTrackerMsg) ++ e),
            running := running, emitted := [], unread := [] }
        | Except.ok child =>
          match child.stdoutPipe with
          | none => { result := Except.error noStdoutMsg, running := running, emitted := [], unread := [] }
          | some items =>
            let loopOut := readLoop items stops running none []
            -- RUNNING.store(false, SeqCst), line 179
            { result := Except.ok loopOut.2.1, running := false,
              emitted := loopOut.2.2.1, unread := loopOut.2.2.2 }

/-- Embedding of `stop_search` (main.rs lines 183-187): unconditionally store
false into the flag. -/
def stop_search (_running : Bool) : Bool := false

/-! ## The single-flight guard claim step (C2's interleaving model)

`start_binary_search` claims the guard with two separate atomic operations:
`RUNNING.load` (line 124) and `RUNNING.store(true)` (line 128). The model
below runs two concurrent invocations of just that prologue, one atomic
operation per scheduler step. -/

/-- Program counter of one Start invocation's guard prologue. -/
inductive GuardPc where
  | atLoad
  | atStore
  | failed
  | claimed
  deriving DecidableEq

/-- Shared flag plus the two invocations' program counters. -/
structure GuardState where
  flag : Bool
  pc1 : GuardPc
  pc2 : GuardPc
  deriving DecidableEq

/-- One atomic step of one invocation: the load branches on the flag
(main.rs 124-126), the store sets it (main.rs 128). -/
def guardStep (pc : GuardPc) (flag : Bool) : GuardPc × Bool :=
  match pc with
  | GuardPc.atLoad => if flag then (GuardPc.failed, flag) else (GuardPc.atStore, flag)
  | GuardPc.atStore => (GuardPc.claimed, true)
  | GuardPc.failed => (GuardPc.failed, flag)
  | GuardPc.claimed => (GuardPc.claimed, flag)

/-- Scheduler step: `true` runs invocation 1, `false` runs invocation 2. -/
def schedStep (s : GuardState) (choice : Bool) : GuardState :=
  if choice then
    let p := guardStep s.pc1 s.flag
    { flag := p.2, pc1 := p.1, pc2 := s.pc2 }
  else
    let p := guardStep s.pc2 s.flag
    { flag := p.2, pc1 := s.pc1, pc2 := p.1 }

/-- Run a schedule of interleaved atomic steps. -/
def runSched (s : GuardState) : List Bool → GuardState
  | [] => s
  | c :: cs => runSched (schedStep s c) cs

/-! ## Connectivity prober (`test_connection`, main.rs 189-247) -/

/-- Models Rust `str::lines` on the captured stdout: split at `'\n'`, strip
one trailing `'\r'` from a line that was terminated by `'\n'`, no empty final
line for a trailing newline. The accumulator holds the current line reversed. -/
def rustLinesAux : List Char → List Char → List String
  | [], [] => []
  | [], acc => [String.mk acc.reverse]
  | '\n' :: rest, acc =>
    (match acc with
     | '\r' :: acc2 => String.mk acc2.reverse
     | _ => String.mk acc.reverse) :: rustLinesAux rest []
  | c :: rest, acc => rustLinesAux rest (c :: acc)

def rustLines (s : String) : List String := rustLinesAux s.data []

/-- ASCII whitespace for `trim` (the payloads involved are ASCII). -/
def isWsChar (c : Char) : Bool := c = ' ' || c = '\t' || c = '\n' || c = '\r'

/-- Models Rust `str::trim`. -/
def rustTrim (s : String) : String :=
  String.mk (((s.data.dropWhile isWsChar).reverse.dropWhile isWsChar).reverse)

/-- The scan loop of `test_connection`, main.rs lines 234-238: first line
with a `CONNECTED:` prefix wins, its remainder trimmed. -/
def scanConnected : List String → Option String
  | [] => none
  | l :: rest =>
    if rustStartsWith l "CONNECTED:" then some (rustTrim (strDrop l 10))
    else scanConnected rest

/-- Captured output of `cmd.output()` after `from_utf8_lossy`. -/
structure ProcOutput where
  stdout : String
  stderr : String
  deriving DecidableEq

/-- Environment of one `test_connection` invocation: launcher environment and
the outcome of `cmd.output().await`. -/
structure TestConnEnv where
  launcher : LauncherEnv
  runOutput : Except String ProcOutput

def connFailedMsg : String := "连接失败，stdout: "

/-- The `Command` built by `test_connection` (main.rs lines 200-229):
program and argument list. The proxy pair is appended only when
`proxyEnabled`; `format!` on a `u16` is decimal, modelled by `Nat.repr`. -/
def test_connection_command (debugAssertions : Bool) (tracker_path token : String)
    (proxyEnabled : Bool) (proxyHost : String) (proxyPort : Nat) : String × List String :=
  if debugAssertions then
    let args := [tracker_path, "--test-connection", token]
    let args := if proxyEnabled then args ++ ["--proxy", proxyHost ++ ":" ++ Nat.repr proxyPort] else args
    ("python", args)
  else
    let args := ["--test-connection", token]
    let args := if proxyEnabled then args ++ ["--proxy", proxyHost ++ ":" ++ Nat.repr proxyPort] else args
    (tracker_path, args)

/-- Embedding of `test_connection` (main.rs lines 189-247). The built command
does not influence the captured output in the model (that is the worker's
behavior, part of the environment), so the proxy arguments are dropped here;
`test_connection_command` models the command construction itself. -/
def test_connection (env : TestConnEnv) : Except String String :=
  match get_tracker_path env.launcher with
  | Except.error e => Except.error e
  | Except.ok _tracker_path =>
    match env.runOutput with
    | Except.error e =>
      Except.error ((if env.launcher.debugAssertions then spawnPythonMsg else spawnTrackerMsg) ++ e)
    | Except.ok output =>
      match scanConnected (rustLines output.stdout) with
      | some msg => Except.ok msg
      | none =>
        if output.stderr = "" then Except.error (connFailedMsg ++ output.stdout)
        else Except.error output.stderr

/-! ## Concrete environments and inputs used by the claim theorems -/

/-- Development-mode environment (`cfg!(debug_assertions)` true). -/
def devLauncher : LauncherEnv :=
  { debugAssertions := true, resolveResource := none, resourceDir := none,
    currentExe := none, parentOf := fun _ => none, pathExists := fun _ => false }

/-- Packaged-mode environment in which no candidate exists. -/
def emptyPackagedLauncher : LauncherEnv :=
  { debugAssertions := false, resolveResource := none, resourceDir := none,
    currentExe := none, parentOf := fun _ => none, pathExists := fun _ => false }

/-- Packaged-mode environment where only the "exe directory + resources"
candidate exists. -/
def onlyExeResourcesLauncher : LauncherEnv :=
  { debugAssertions := false, resolveResource := none, resourceDir := none,
    currentExe := some "C:/app/main.exe", parentOf := fun _ => some "C:/app",
    pathExists := fun p => p == "C:/app/resources/tracker.exe" }

/-- Packaged-mode environment whose executable lives under a verbatim path:
only the unstripped `exe_dir/resources/tracker.exe` candidate exists. -/
def verbatimExeLauncher : LauncherEnv :=
  { debugAssertions := false, resolveResource := none, resourceDir := none,
    currentExe := some "\\\\?\\C:/app/main.exe", parentOf := fun _ => some "\\\\?\\C:/app",
    pathExists := fun p => p == pathJoin (pathJoin "\\\\?\\C:/app" "resources") "tracker.exe" }

/-- Packaged-mode environment where `resolve_resource` yields a verbatim path
and only the stripped form of it exists on disk. -/
def resolveVerbatimLauncher : LauncherEnv :=
  { debugAssertions := false, resolveResource := some "\\\\?\\C:/inst/tracker.exe",
    resourceDir := none, currentExe := none, parentOf := fun _ => none,
    pathExists := fun p => p == "C:/inst/tracker.exe" }

/-- The simulated progress line of the spec's test scenario. -/
def progressLine : String :=
  "PROGRESS:\x7b\"step\":1,\"total\":4,\"remaining\":8,\"message\":\"m\"\x7d"

/-- The simulated result line of the spec's test scenario, with the
`displayName` key exactly as the spec writes it. -/
def resultLineCamel : String :=
  "RESULT:\x7b\"id\":\"x\",\"username\":\"u\",\"displayName\":\"d\",\"avatar\":\"a\",\"roles\":[\"r1\"]\x7d"

/-- The same result payload but with the `display_name` key the Rust struct
actually deserializes. -/
def resultLineSnake : String :=
  "RESULT:\x7b\"id\":\"x\",\"username\":\"u\",\"display_name\":\"d\",\"avatar\":\"a\",\"roles\":[\"r1\"]\x7d"

/-- A development-mode Start environment around a simulated worker stream. -/
def simEnv (items : List ReadItem) : StartEnv :=
  { launcher := devLauncher, serializeConfig := Except.ok "{}",
    spawn := Except.ok ⟨some items⟩ }

/-- Packaged start with no worker installed (`get_tracker_path` fails). -/
def workerMissingEnv : StartEnv :=
  { launcher := emptyPackagedLauncher, serializeConfig := Except.ok "{}",
    spawn := Except.ok ⟨none⟩ }

/-- Dev start whose `Command::spawn` fails at the OS level. -/
def spawnFailEnv : StartEnv :=
  { launcher := devLauncher, serializeConfig := Except.ok "{}",
    spawn := Except.error "program not found" }

/-- Dev start whose spawned child exposes no stdout pipe. -/
def noStdoutEnv : StartEnv :=
  { launcher := devLauncher, serializeConfig := Except.ok "{}",
    spawn := Except.ok ⟨none⟩ }

/-- Probe whose worker prints a `CONNECTED:` verdict with padding. -/
def probeOkEnv : TestConnEnv :=
  { launcher := devLauncher, runOutput := Except.ok ⟨"CONNECTED:  ok  \n", ""⟩ }

/-- Probe whose worker prints nothing on stdout and "boom" on stderr. -/
def probeErrEnv : TestConnEnv :=
  { launcher := devLauncher, runOutput := Except.ok ⟨"", "boom"⟩ }

/-! ## Helper lemmas -/

theorem charsIsPre_head (p : Char) (ps cs : List Char)
    (h : charsIsPre (p :: ps) cs = true) : ∃ t, cs = p :: t := by
  cases cs with
  | nil => simp [charsIsPre] at h
  | cons c t =>
    simp [charsIsPre, Bool.and_eq_true, beq_iff_eq] at h
    exact ⟨t, by rw [h.1]⟩

/-- No line starts with both `PROGRESS:` and `RESULT:`. -/
theorem progress_result_disjoint (s : String)
    (h1 : rustStartsWith s "PROGRESS:" = true) :
    rustStartsWith s "RESULT:" = false := by
  by_contra h2
  rw [Bool.not_eq_false] at h2
  obtain ⟨t1, ht1⟩ := charsIsPre_head 'P' "ROGRESS:".data s.data h1
  obtain ⟨t2, ht2⟩ := charsIsPre_head 'R' "ESULT:".data s.data h2
  rw [ht1] at ht2
  injection ht2 with hc _
  exact absurd hc (by decide)

/-- Characterization of candidate (a): the verbatim marker is stripped before
both the existence check and the returned path. -/
theorem candidate1_char (env : LauncherEnv) (p : String) :
    candidate1 env = some p ↔
      ∃ raw, env.resolveResource = some raw ∧ p = stripVerbatim raw
        ∧ env.pathExists p = true := by
  unfold candidate1
  cases hr : env.resolveResource with
  | none => simp
  | some path =>
    simp only [Option.some.injEq]
    constructor
    · intro h
      split at h
      next he => injection h with h2; exact ⟨path, rfl, h2.symm, by rw [← h2]; exact he⟩
      next => cases h
    · rintro ⟨raw, hraw, hp, he⟩
      subst hraw
      rw [hp] at he ⊢
      rw [if_pos he]

/-- Characterization of candidate (b): the resource-directory join has the
verbatim marker stripped before the existence check and use. -/
theorem candidate2_char (env : LauncherEnv) (p : String) :
    candidate2 env = some p ↔
      ∃ rdir, env.resourceDir = some rdir ∧ p = stripVerbatim (pathJoin rdir "tracker.exe")
        ∧ env.pathExists p = true := by
  unfold candidate2
  cases hr : env.resourceDir with
  | none => simp
  | some resource_dir =>
    simp only [Option.some.injEq]
    constructor
    · intro h
      split at h
      next he => injection h with h2; exact ⟨resource_dir, rfl, h2.symm, by rw [← h2]; exact he⟩
      next => cases h
    · rintro ⟨rdir, hrd, hp, he⟩
      subst hrd
      rw [hp] at he ⊢
      rw [if_pos he]

/-- Characterization of candidate (c): the joined `exe_dir/resources` path is
checked and returned verbatim — no stripping in the source here. -/
theorem candidate3_char (env : LauncherEnv) (p : String) :
    candidate3 env = some p ↔
      ∃ dir, exeDir env = some dir ∧ p = pathJoin (pathJoin dir "resources") "tracker.exe"
        ∧ env.pathExists p = true := by
  unfold candidate3
  cases hd : exeDir env with
  | none => simp
  | some exe_dir =>
    simp only [Option.some.injEq]
    constructor
    · intro h
      split at h
      next he => injection h with h2; exact ⟨exe_dir, rfl, h2.symm, by rw [← h2]; exact he⟩
      next => cases h
    · rintro ⟨dir, hdir, hp, he⟩
      subst hdir
      rw [hp] at he ⊢
      rw [if_pos he]

/-- Characterization of candidate (d): the joined `exe_dir` path is checked
and returned verbatim — no stripping in the source here. -/
theorem candidate4_char (env : LauncherEnv) (p : String) :
    candidate4 env = some p ↔
      ∃ dir, exeDir env = some dir ∧ p = pathJoin dir "tracker.exe"
        ∧ env.pathExists p = true := by
  unfold candidate4
  cases hd : exeDir env with
  | none => simp
  | some exe_dir =>
    simp only [Option.some.injEq]
    constructor
    · intro h
      split at h
      next he => injection h with h2; exact ⟨exe_dir, rfl, h2.symm, by rw [← h2]; exact he⟩
      next => cases h
    · rintro ⟨dir, hdir, hp, he⟩
      subst hdir
      rw [hp] at he ⊢
      rw [if_pos he]

/-- Packaged-mode unfolding of `get_tracker_path` as the first-match over the
four candidates. -/
theorem get_tracker_path_packaged (env : LauncherEnv) (h : env.debugAssertions = false) :
    get_tracker_path env =
      (match candidate1 env with
       | some p => Except.ok p
       | none =>
         match candidate2 env with
         | some p => Except.ok p
         | none =>
           match candidate3 env with
           | some p => Except.ok p
           | none =>
             match candidate4 env with
             | some p => Except.ok p
             | none => Except.error workerNotFoundMsg) := by
  unfold get_tracker_path
  rw [h]
  simp

/-- The scan loop of the prober is first-match over the captured lines. -/
theorem scanConnected_eq_find (ls : List String) :
    scanConnected ls =
      ((ls.find? (fun l => rustStartsWith l "CONNECTED:")).map
        (fun l => rustTrim (strDrop l 10))) := by
  induction ls with
  | nil => rfl
  | cons l rest ih =>
    cases hc : rustStartsWith l "CONNECTED:" with
    | true => simp [scanConnected, List.find?, hc]
    | false => simp [scanConnected, List.find?, hc, ih]

/-! ## Claim theorems -/

/-- Claim C1 (code bug demonstrated): on each failure path reached after the
single-flight flag was claimed — executable resolution failure
(WorkerNotFound), spawn failure, and failure to obtain the child's stdout —
`start_binary_search` returns the error with the `RUNNING` flag still set
(`running = true`), contradicting the claim that the flag is cleared before
Start returns. (Config-serialization failure takes the same `?` early-return
shape at line 130.) -/
theorem c1_flag_left_set :
    ((start_binary_search workerMissingEnv false []).result = Except.error workerNotFoundMsg
      ∧ (start_binary_search workerMissingEnv false []).running = true)
  ∧ ((start_binary_search spawnFailEnv false []).result
        = Except.error (spawnPythonMsg ++ "program not found")
      ∧ (start_binary_search spawnFailEnv false []).running = true)
  ∧ ((start_binary_search noStdoutEnv false []).result = Except.error noStdoutMsg
      ∧ (start_binary_search noStdoutEnv false []).running = true) :=
  ⟨⟨rfl, rfl⟩, ⟨rfl, rfl⟩, ⟨rfl, rfl⟩⟩

/-- Claim C2, counterexample: the guard is claimed by a separate load
(line 124) and store (line 128), not one atomic read-modify-write. In the
interleaving load₁, load₂, store₁, store₂ starting from a clear flag, both
concurrent Start invocations pass the guard (`claimed`), refuting "of any two
concurrent Start calls at most one succeeds". -/
theorem c2_counterexample :
    runSched ⟨false, GuardPc.atLoad, GuardPc.atLoad⟩ [true, false, true, false]
      = ⟨true, GuardPc.claimed, GuardPc.claimed⟩ := rfl

/-- Claim C2, amended: Start fails with AlreadyRunning when the flag is
observed set; a clear flag is claimed by a separate load followed by a store,
and because that read-modify-write is not a single atomic operation there is
an interleaving in which two concurrent Start calls both succeed. -/
theorem c2_amended :
    (∀ (env : StartEnv) (stops : List Bool),
        (start_binary_search env true stops).result = Except.error alreadyRunningMsg)
  ∧ guardStep GuardPc.atLoad true = (GuardPc.failed, true)
  ∧ guardStep GuardPc.atLoad false = (GuardPc.atStore, false)
  ∧ ∃ sched, runSched ⟨false, GuardPc.atLoad, GuardPc.atLoad⟩ sched
      = ⟨true, GuardPc.claimed, GuardPc.claimed⟩ :=
  ⟨fun _ _ => rfl, rfl, rfl, ⟨[true, false, true, false], rfl⟩⟩

/-- Claim C3: the codec yields a progress event iff the line starts with
`PROGRESS:` and the remainder decodes as a `SearchProgress`; a result record
iff it starts with `RESULT:` and the remainder decodes as a `LeakerInfo`; and
every other line — including a recognized prefix with an undecodable
remainder — yields nothing. (`processLine` is a total function, so decoding
never raises an error.) -/
theorem c3_codec (line : String) :
    (∀ p, processLine line = LineAction.emit p ↔
      rustStartsWith line "PROGRESS:" = true ∧ parseSearchProgress (strDrop line 9) = some p)
  ∧ (∀ r, processLine line = LineAction.retain r ↔
      rustStartsWith line "RESULT:" = true ∧ parseLeakerInfo (strDrop line 7) = some r)
  ∧ (rustStartsWith line "PROGRESS:" = false → rustStartsWith line "RESULT:" = false →
      processLine line = LineAction.nothing) := by
  refine ⟨?_, ?_, ?_⟩
  · intro p
    cases hP : rustStartsWith line "PROGRESS:" with
    | false =>
      cases hR : rustStartsWith line "RESULT:" with
      | false => simp [processLine, hP, hR]
      | true =>
        cases hparse : parseLeakerInfo (strDrop line 7) with
        | none => simp [processLine, hP, hR, hparse]
        | some r => simp [processLine, hP, hR, hparse]
    | true =>
      cases hparse : parseSearchProgress (strDrop line 9) with
      | none => simp [processLine, hP, hparse]
      | some q => simp [processLine, hP, hparse]
  · intro r
    cases hP : rustStartsWith line "PROGRESS:" with
    | true =>
      have hR := progress_result_disjoint line hP
      cases hparse : parseSearchProgress (strDrop line 9) with
      | none => simp [processLine, hP, hR, hparse]
      | some q => simp [processLine, hP, hR, hparse]
    | false =>
      cases hR : rustStartsWith line "RESULT:" with
      | false => simp [processLine, hP, hR]
      | true =>
        cases hparse : parseLeakerInfo (strDrop line 7) with
        | none => simp [processLine, hP, hR, hparse]
        | some q => simp [processLine, hP, hR, hparse]
  · intro hP hR
    simp [processLine, hP, hR]

/-- Witness for C3 at concrete lines: an unprefixed line yields nothing (via
the theorem), a valid progress line emits, a `PROGRESS:` line with a
non-JSON remainder yields nothing. -/
theorem c3_codec_witness :
    processLine "hello world" = LineAction.nothing
  ∧ processLine progressLine = LineAction.emit ⟨1, 4, 8, "m", []⟩
  ∧ processLine "PROGRESS:not json" = LineAction.nothing := by
  refine ⟨(c3_codec "hello world").2.2 rfl rfl, ?_, ?_⟩
  · exact ((c3_codec progressLine).1 ⟨1, 4, 8, "m", []⟩).mpr ⟨rfl, rfl⟩
  · rfl

/-- Claim C4, counterexample: in packaged mode with the executable under a
verbatim path, the `exe_dir/resources/tracker.exe` candidate is
existence-checked and returned as the spawn path with the `\\?\` marker
still present (only the stripped form's nonexistence shows the check used the
unstripped path), refuting "every one of the four candidates has the marker
stripped before its existence check and before being used as the spawn
path". -/
theorem c4_counterexample :
    get_tracker_path verbatimExeLauncher = Except.ok "\\\\?\\C:/app/resources/tracker.exe"
  ∧ rustStartsWith "\\\\?\\C:/app/resources/tracker.exe" verbatimMarker = true
  ∧ verbatimExeLauncher.pathExists "\\\\?\\C:/app/resources/tracker.exe" = true
  ∧ verbatimExeLauncher.pathExists (stripVerbatim "\\\\?\\C:/app/resources/tracker.exe") = false :=
  ⟨rfl, rfl, rfl, rfl⟩

/-- Claim C4, amended: only the first two candidates (resource-resolution
API and resource-directory join) have the verbatim marker stripped before
the existence check and before use; the two exe-directory candidates are
checked and returned with the joined path as-is, unstripped. -/
theorem c4_amended (env : LauncherEnv) :
    (∀ p, candidate1 env = some p →
      ∃ raw, env.resolveResource = some raw ∧ p = stripVerbatim raw
        ∧ env.pathExists p = true)
  ∧ (∀ p, candidate2 env = some p →
      ∃ rdir, env.resourceDir = some rdir ∧ p = stripVerbatim (pathJoin rdir "tracker.exe")
        ∧ env.pathExists p = true)
  ∧ (∀ p, candidate3 env = some p →
      ∃ dir, exeDir env = some dir ∧ p = pathJoin (pathJoin dir "resources") "tracker.exe"
        ∧ env.pathExists p = true)
  ∧ (∀ p, candidate4 env = some p →
      ∃ dir, exeDir env = some dir ∧ p = pathJoin dir "tracker.exe"
        ∧ env.pathExists p = true) :=
  ⟨fun p h => (candidate1_char env p).mp h, fun p h => (candidate2_char env p).mp h,
   fun p h => (candidate3_char env p).mp h, fun p h => (candidate4_char env p).mp h⟩

/-- Witness for the amended C4: a verbatim `resolve_resource` candidate is
returned stripped, and exists in stripped form. -/
theorem c4_amended_witness :
    ∃ raw, resolveVerbatimLauncher.resolveResource = some raw
      ∧ "C:/inst/tracker.exe" = stripVerbatim raw
      ∧ resolveVerbatimLauncher.pathExists "C:/inst/tracker.exe" = true :=
  (c4_amended resolveVerbatimLauncher).1 "C:/inst/tracker.exe" rfl

/-- Claim C5: in packaged mode, resolution fails with the WorkerNotFound
message exactly when none of the four candidates exists; otherwise it
returns the first existing candidate in the order (a) resolve_resource,
(b) resource_dir join, (c) exe_dir/resources, (d) exe_dir; and every
returned path passed the existence check (resolution is a pure function of
the environment — existence checks only). -/
theorem c5_launcher (env : LauncherEnv) (h : env.debugAssertions = false) :
    (get_tracker_path env = Except.error workerNotFoundMsg ↔
      candidate1 env = none ∧ candidate2 env = none ∧ candidate3 env = none
        ∧ candidate4 env = none)
  ∧ (∀ p, candidate1 env = some p → get_tracker_path env = Except.ok p)
  ∧ (∀ p, candidate1 env = none → candidate2 env = some p →
      get_tracker_path env = Except.ok p)
  ∧ (∀ p, candidate1 env = none → candidate2 env = none → candidate3 env = some p →
      get_tracker_path env = Except.ok p)
  ∧ (∀ p, candidate1 env = none → candidate2 env = none → candidate3 env = none →
      candidate4 env = some p → get_tracker_path env = Except.ok p)
  ∧ (∀ p, get_tracker_path env = Except.ok p → env.pathExists p = true) := by
  refine ⟨?_, ?_, ?_, ?_, ?_, ?_⟩
  · rw [get_tracker_path_packaged env h]
    cases hc1 : candidate1 env with
    | some p => simp [hc1]
    | none =>
      cases hc2 : candidate2 env with
      | some p => simp
      | none =>
        cases hc3 : candidate3 env with
        | some p => simp
        | none =>
          cases hc4 : candidate4 env with
          | some p => simp
          | none => simp
  · intro p hp
    rw [get_tracker_path_packaged env h, hp]
  · intro p h1 hp
    rw [get_tracker_path_packaged env h, h1, hp]
  · intro p h1 h2 hp
    rw [get_tracker_path_packaged env h, h1, h2, hp]
  · intro p h1 h2 h3 hp
    rw [get_tracker_path_packaged env h, h1, h2, h3, hp]
  · intro p hp
    rw [get_tracker_path_packaged env h] at hp
    cases hc1 : candidate1 env with
    | some q =>
      rw [hc1] at hp
      injection hp with hq
      obtain ⟨_, _, _, he⟩ := (candidate1_char env q).mp hc1
      rw [← hq]
      exact he
    | none =>
      rw [hc1] at hp
      cases hc2 : candidate2 env with
      | some q =>
        rw [hc2] at hp
        injection hp with hq
        obtain ⟨_, _, _, he⟩ := (candidate2_char env q).mp hc2
        rw [← hq]
        exact he
      | none =>
        rw [hc2] at hp
        cases hc3 : candidate3 env with
        | some q =>
          rw [hc3] at hp
          injection hp with hq
          obtain ⟨_, _, _, he⟩ := (candidate3_char env q).mp hc3
          rw [← hq]
          exact he
        | none =>
          rw [hc3] at hp
          cases hc4 : candidate4 env with
          | some q =>
            rw [hc4] at hp
            injection hp with hq
            obtain ⟨_, _, _, he⟩ := (candidate4_char env q).mp hc4
            rw [← hq]
            exact he
          | none => rw [hc4] at hp; cases hp

/-- Witness for C5: with only the exe-dir+resources candidate present,
resolution returns it; with no candidate present, it fails with the
WorkerNotFound message. -/
theorem c5_launcher_witness :
    get_tracker_path onlyExeResourcesLauncher = Except.ok "C:/app/resources/tracker.exe"
  ∧ get_tracker_path emptyPackagedLauncher = Except.error workerNotFoundMsg := by
  constructor
  · exact (c5_launcher onlyExeResourcesLauncher rfl).2.2.2.1 "C:/app/resources/tracker.exe"
      rfl rfl rfl
  · exact (c5_launcher emptyPackagedLauncher rfl).1.mpr ⟨rfl, rfl, rfl, rfl⟩

/-- Claim C6, counterexample: Stop clears the flag between the two simulated
lines (stop schedule `[false, true]`); Start does return None, but the next
line — a decodable `RESULT:` line — is still consumed from stdout before the
flag check breaks the loop (`unread = []`, not `[resultLineSnake]`), refuting
"returns None without consuming further lines". -/
theorem c6_counterexample :
    start_binary_search (simEnv [ReadItem.line progressLine, ReadItem.line resultLineSnake])
        false [false, true]
      = { result := Except.ok none, running := false,
          emitted := [⟨1, 4, 8, "m", []⟩], unread := [] } := rfl

/-- Claim C6, amended: if Stop cleared the flag since the previous iteration,
the read loop consumes at most one further line, processes nothing further
(result and emitted events unchanged), exits with the flag clear; and a
subsequent Start with the flag clear passes the guard and completes with a
success value. -/
theorem c6_amended (items : List ReadItem) (stops : List Bool) (running : Bool)
    (result : Option LeakerInfo) (emitted : List SearchProgress)
    (h : stops.headD false = true) :
    readLoop items stops running result emitted = (false, result, emitted, items.tail)
  ∧ ∀ (env : StartEnv) (stops2 : List Bool) (cj tp : String) (child : Child)
      (items2 : List ReadItem),
      env.serializeConfig = Except.ok cj →
      get_tracker_path env.launcher = Except.ok tp →
      env.spawn = Except.ok child → child.stdoutPipe = some items2 →
      ∃ r, (start_binary_search env false stops2).result = Except.ok r := by
  constructor
  · cases stops with
    | nil => simp [List.headD] at h
    | cons s srest =>
      simp only [List.headD] at h
      subst h
      cases items with
      | nil => simp [readLoop]
      | cons x rest =>
        cases x with
        | ioError => simp [readLoop]
        | line l => simp [readLoop]
  · intro env stops2 cj tp child items2 h1 h2 h3 h4
    refine ⟨(readLoop items2 stops2 true none []).2.1, ?_⟩
    simp [start_binary_search, h1, h2, h3, h4]

/-- Witness for the amended C6: with the flag cleared before the iteration,
the loop consumes and discards the pending decodable result line, and a
fresh Start on a clear flag completes successfully. -/
theorem c6_amended_witness :
    readLoop [ReadItem.line resultLineSnake] [true] true none [] = (false, none, [], [])
  ∧ ∃ r, (start_binary_search (simEnv []) false []).result = Except.ok r := by
  constructor
  · exact (c6_amended [ReadItem.line resultLineSnake] [true] true none [] rfl).1
  · exact (c6_amended [] [true] true none [] rfl).2 (simEnv []) [] "{}" "../python/tracker.py"
      ⟨some []⟩ [] rfl rfl rfl rfl

/-- Claim C7, counterexample: on the spec's simulated stream the progress
line is decoded and emitted (exactly one event, step 1), but the result line
is silently discarded — `LeakerInfo` deserializes the field name
`display_name`, not the payload's `displayName` — so Start returns
`Ok(None)`, not the claimed record. -/
theorem c7_counterexample :
    start_binary_search (simEnv [ReadItem.line progressLine, ReadItem.line resultLineCamel])
        false []
      = { result := Except.ok none, running := false,
          emitted := [⟨1, 4, 8, "m", []⟩], unread := [] }
  ∧ ((Except.ok none : Except String (Option LeakerInfo))
      ≠ Except.ok (some ⟨"x", "u", "d", "a", ["r1"], false⟩)) :=
  ⟨rfl, by simp⟩

/-- Claim C7, amended: on the spec's simulated stream Start emits exactly one
progress notification with step 1 but returns None (the `displayName` key
does not match the struct's `display_name` field, so the result line is
dropped); with the key spelled `display_name` the run returns the claimed
record with `confirmed` defaulting to false. -/
theorem c7_amended :
    start_binary_search (simEnv [ReadItem.line progressLine, ReadItem.line resultLineCamel])
        false []
      = { result := Except.ok none, running := false,
          emitted := [⟨1, 4, 8, "m", []⟩], unread := [] }
  ∧ start_binary_search (simEnv [ReadItem.line progressLine, ReadItem.line resultLineSnake])
        false []
      = { result := Except.ok (some ⟨"x", "u", "d", "a", ["r1"], false⟩), running := false,
          emitted := [⟨1, 4, 8, "m", []⟩], unread := [] } :=
  ⟨rfl, rfl⟩

/-- Claim C8: whenever the launcher resolves and the worker's output is
captured, TestConnection returns the trimmed remainder of the first stdout
line with a `CONNECTED:` prefix; when no such line exists it fails with the
captured stderr text if that is non-empty, else with a message embedding the
full captured stdout. -/
theorem c8_prober (env : TestConnEnv) (out err tp : String)
    (h1 : get_tracker_path env.launcher = Except.ok tp)
    (h2 : env.runOutput = Except.ok ⟨out, err⟩) :
    test_connection env =
      (match (rustLines out).find? (fun l => rustStartsWith l "CONNECTED:") with
       | some l => Except.ok (rustTrim (strDrop l 10))
       | none =>
         if err = "" then Except.error (connFailedMsg ++ out) else Except.error err) := by
  cases hf : (rustLines out).find? (fun l => rustStartsWith l "CONNECTED:") with
  | some l => simp [test_connection, h1, h2, scanConnected_eq_find, hf]
  | none => simp [test_connection, h1, h2, scanConnected_eq_find, hf]

/-- Witness for C8: stdout `CONNECTED:  ok  \n` yields `"ok"` (whitespace
trimmed); empty stdout with stderr `"boom"` fails with message `"boom"`. -/
theorem c8_prober_witness :
    test_connection probeOkEnv = Except.ok "ok"
  ∧ test_connection probeErrEnv = Except.error "boom" := by
  constructor
  · rw [c8_prober probeOkEnv "CONNECTED:  ok  \n" "" "../python/tracker.py" rfl rfl]
    rfl
  · rw [c8_prober probeErrEnv "" "boom" "../python/tracker.py" rfl rfl]
    rfl

/-- Claim C9: the probe command always carries `--test-connection <token>`,
and carries the combined `--proxy <host>:<port>` pair exactly when
`proxyEnabled` — structurally, the argument list is the test-connection base
plus the proxy pair iff the flag is set, so no proxy argument appears when
the flag is false. -/
theorem c9_args (dbg : Bool) (tp token : String) (pe : Bool) (host : String) (port : Nat) :
    test_connection_command dbg tp token pe host port =
      ((if dbg then "python" else tp),
        (if dbg then [tp] else []) ++ ["--test-connection", token]
          ++ (if pe then ["--proxy", host ++ ":" ++ Nat.repr port] else [])) := by
  cases dbg <;> cases pe <;> simp [test_connection_command]

/-- Claim C10: a mid-stream read error makes the loop exit exactly as
end-of-stream does (same final flag, same retained result, same emitted
events); at the Start level the flag is cleared on loop exit and the
retained result is returned as a success — a read error is never surfaced
as an error. -/
theorem c10_read_error (rest : List ReadItem) (stops : List Bool) (running : Bool)
    (result : Option LeakerInfo) (emitted : List SearchProgress) (env : StartEnv)
    (stops2 : List Bool) (cj tp : String) (child : Child) (items : List ReadItem)
    (h1 : env.serializeConfig = Except.ok cj)
    (h2 : get_tracker_path env.launcher = Except.ok tp)
    (h3 : env.spawn = Except.ok child) (h4 : child.stdoutPipe = some items) :
    ((readLoop (ReadItem.ioError :: rest) stops running result emitted).1
        = (readLoop [] stops running result emitted).1
      ∧ (readLoop (ReadItem.ioError :: rest) stops running result emitted).2.1
        = (readLoop [] stops running result emitted).2.1
      ∧ (readLoop (ReadItem.ioError :: rest) stops running result emitted).2.2.1
        = (readLoop [] stops running result emitted).2.2.1)
  ∧ ((start_binary_search env false stops2).running = false
      ∧ ∃ r, (start_binary_search env false stops2).result = Except.ok r) := by
  refine ⟨⟨rfl, rfl, rfl⟩, ?_, ?_⟩
  · simp [start_binary_search, h1, h2, h3, h4]
  · exact ⟨(readLoop items stops2 true none []).2.1,
      by simp [start_binary_search, h1, h2, h3, h4]⟩

/-- Witness for C10: a stream whose second read fails with an I/O error
still completes as a success, with the flag cleared and the result retained
before the error returned. -/
theorem c10_read_error_witness :
    (start_binary_search (simEnv [ReadItem.line resultLineSnake, ReadItem.ioError,
        ReadItem.line progressLine]) false []).running = false
  ∧ ∃ r, (start_binary_search (simEnv [ReadItem.line resultLineSnake, ReadItem.ioError,
      ReadItem.line progressLine]) false []).result = Except.ok r :=
  (c10_read_error [] [] true none []
    (simEnv [ReadItem.line resultLineSnake, ReadItem.ioError, ReadItem.line progressLine])
    [] "{}" "../python/tracker.py"
    ⟨some [ReadItem.line resultLineSnake, ReadItem.ioError, ReadItem.line progressLine]⟩
    [ReadItem.line resultLineSnake, ReadItem.ioError, ReadItem.line progressLine]
    rfl rfl rfl rfl).2

end BinaryTool
